import Mathlib

/-!
Verification of the arcade-game simulation cores of the `rgb_matrix`
repository.  The four games (`breakout_game.py`, `flappy_bird_game.py`,
`google_dinosaur_game.py`, `subway_surfers.py`) are shallowly embedded:
Python floats become rationals (`ℚ`), Python ints become `ℤ`, Python lists
become Lean lists, and each mutating method becomes a state-passing
function that performs the same field updates in the same statement order.
-/

/-- Python's `int(q)` conversion: truncation toward zero. -/
def pyTrunc (q : ℚ) : ℤ :=
  if 0 ≤ q then ⌊q⌋ else -⌊-q⌋

namespace Breakout

/- Constants from `breakout_game.py` (`W, H = 64, 32`, `PADDLE_W, PADDLE_H
= 16, 2`, `BALL_SZ = 2`, `BALL_SPEED = 1`, `BRICK_W = W // BRICK_COLS = 8`,
`BRICK_H = 3`, `LIVES_START = 3`). -/

def W : ℤ := 64
def H : ℤ := 32
def PADDLE_W : ℤ := 16
def PADDLE_H : ℤ := 2
def BALL_SZ : ℤ := 2
def BALL_SPEED : ℚ := 1
def BRICK_ROWS : ℕ := 4
def BRICK_COLS : ℕ := 8
def BRICK_W : ℤ := 8
def BRICK_H : ℤ := 3
def LIVES_START : ℤ := 3

/-- `Paddle`: position is kept integral by the source (`x + int(v)` clamped),
`v` is a float set from the input axis each tick. -/
structure Paddle where
  x : ℤ
  y : ℤ
  v : ℚ
deriving DecidableEq, Repr

/-- `Paddle.__init__`: `x = (W - w) // 2`, `y = H - 3`, `v = 0.0`. -/
def Paddle.init : Paddle :=
  { x := (W - PADDLE_W) / 2, y := H - 3, v := 0 }

/-- `Paddle.update`: `x = max(0, min(W - w, x + int(v)))`. -/
def Paddle.update (p : Paddle) : Paddle :=
  { p with x := max 0 (min (W - PADDLE_W) (p.x + pyTrunc p.v)) }

/-- `Ball`: float position and velocity plus the `stuck` flag. -/
structure Ball where
  x : ℚ
  y : ℚ
  dx : ℚ
  dy : ℚ
  stuck : Bool
deriving DecidableEq, Repr

/-- `Ball.reset(paddle)`: anchor on the paddle with the base velocity. -/
def Ball.reset (p : Paddle) : Ball :=
  { x := ((p.x + PADDLE_W / 2 : ℤ) : ℚ)
    y := ((p.y - BALL_SZ - 1 : ℤ) : ℚ)
    dx := BALL_SPEED
    dy := -BALL_SPEED
    stuck := true }

/-- Lines 108-109 of `Ball.update`: `x += dx; y += dy`. -/
def Ball.move (b : Ball) : Ball :=
  { b with x := b.x + b.dx, y := b.y + b.dy }

/-- Lines 111-114 of `Ball.update`: side-wall and ceiling reflection. -/
def Ball.walls (b : Ball) : Ball :=
  let b1 := if b.x ≤ 0 ∨ ((W - BALL_SZ : ℤ) : ℚ) ≤ b.x then { b with dx := -b.dx } else b
  if b1.y ≤ 0 then { b1 with dy := -b1.dy } else b1

/-- The guard of the paddle-deflection branch (lines 115-118 of
`Ball.update`): the ball's leading edge `y + sz` lies in the paddle's
vertical band, `x` lies in the paddle's horizontal span, and the ball is
moving downward. -/
def paddleCond (p : Paddle) (b : Ball) : Prop :=
  ((p.y : ℚ) ≤ b.y + (BALL_SZ : ℤ) ∧ b.y + (BALL_SZ : ℤ) ≤ ((p.y + PADDLE_H : ℤ) : ℚ)) ∧
  ((p.x : ℚ) ≤ b.x ∧ b.x ≤ ((p.x + PADDLE_W : ℤ) : ℚ)) ∧ 0 < b.dy

instance (p : Paddle) (b : Ball) : Decidable (paddleCond p b) := by
  unfold paddleCond; infer_instance

/-- The impact offset ratio of line 120: `((x - paddle.x) / paddle.w) - 0.5`. -/
def paddleOffset (p : Paddle) (b : Ball) : ℚ :=
  (b.x - (p.x : ℚ)) / (PADDLE_W : ℚ) - 1/2

/-- Lines 115-121 of `Ball.update`: directional paddle deflection.
`dy` is set to `-BALL_SPEED`; `dx` becomes `int(offset * 4)` with a
sign-preserving fallback when that truncates to zero (`int(...) or ...`). -/
def Ball.paddleBounce (p : Paddle) (b : Ball) : Ball :=
  if paddleCond p b then
    let t := pyTrunc (paddleOffset p b * 4)
    { b with dy := -BALL_SPEED
             dx := if t ≠ 0 then (t : ℚ) else (if 0 ≤ b.dx then 1 else -1) }
  else b

/-- Line 123's brick containment test: the ball's reference point `(x, y)`
lies inside `[bx, bx + BRICK_W - 1] × [by, by + BRICK_H - 1]`. -/
def brickHit (x y : ℚ) (br : ℤ × ℤ) : Bool :=
  decide ((br.1 : ℚ) ≤ x) && decide (x ≤ ((br.1 + BRICK_W - 1 : ℤ) : ℚ)) &&
  decide ((br.2 : ℚ) ≤ y) && decide (y ≤ ((br.2 + BRICK_H - 1 : ℤ) : ℚ))

/-- Lines 122-127 of `Ball.update`: scan the bricks in list order, remove
the first one containing the ball's reference point, invert `dy`, score one
point, and stop.  Returns (ball, bricks, score delta). -/
def brickStep (bricks : List (ℤ × ℤ)) (b : Ball) : Ball × List (ℤ × ℤ) × ℤ :=
  match bricks.find? (brickHit b.x b.y) with
  | some br => ({ b with dy := -b.dy }, bricks.erase br, 1)
  | none => (b, bricks, 0)

/-- `Ball.update(paddle, bricks)`: a stuck ball follows the paddle and
scores nothing; otherwise move, reflect at walls, deflect at the paddle,
then consume at most one brick. -/
def Ball.update (p : Paddle) (bricks : List (ℤ × ℤ)) (b : Ball) :
    Ball × List (ℤ × ℤ) × ℤ :=
  if b.stuck then
    ({ b with x := ((p.x + PADDLE_W / 2 : ℤ) : ℚ), y := ((p.y - BALL_SZ - 1 : ℤ) : ℚ) },
     bricks, 0)
  else
    brickStep bricks (Ball.paddleBounce p (Ball.walls (Ball.move b)))

/-- The starting brick layout (line 154): `[(c*BRICK_W, 2 + r*BRICK_H) for
r in range(BRICK_ROWS) for c in range(BRICK_COLS)]`. -/
def initBricks : List (ℤ × ℤ) :=
  (List.range BRICK_ROWS).flatMap fun r =>
    (List.range BRICK_COLS).map fun c => ((c : ℤ) * BRICK_W, 2 + (r : ℤ) * BRICK_H)

/-- The session state mutated by `Breakout.run`. -/
structure State where
  score : ℤ
  lives : ℤ
  paddle : Paddle
  ball : Ball
  bricks : List (ℤ × ℤ)
deriving DecidableEq, Repr

/-- `Breakout.reset` (also the initial state): score 0, full lives, fresh
paddle and anchored ball, full brick layout. -/
def State.init : State :=
  { score := 0
    lives := LIVES_START
    paddle := Paddle.init
    ball := Ball.reset Paddle.init
    bricks := initBricks }

/-- The per-tick input: the paddle axis value and whether a release press
(button 0) arrived this tick. -/
structure Input where
  v : ℚ
  release : Bool
deriving DecidableEq, Repr

/-- The ball after the event-processing phase: a button-0 press while the
ball is stuck releases it. -/
def ballIn (inp : Input) (s : State) : Ball :=
  if inp.release && s.ball.stuck then { s.ball with stuck := false } else s.ball

/-- The paddle after the input and `Paddle.update` phases. -/
def paddleNext (inp : Input) (s : State) : Paddle :=
  Paddle.update { s.paddle with v := inp.v }

/-- The `(ball, bricks, score delta)` triple produced by line 180's
`self.ball.update(self.paddle, self.bricks)`. -/
def updTriple (inp : Input) (s : State) : Ball × List (ℤ × ℤ) × ℤ :=
  Ball.update (paddleNext inp s) s.bricks (ballIn inp s)

/-- Whether this tick performs the full session reset of lines 181-184:
the ball exits the bottom bound and the decremented life count is zero. -/
def fullResetTick (inp : Input) (s : State) : Bool :=
  decide ((H : ℚ) ≤ (updTriple inp s).1.y) && decide (s.lives - 1 = 0)

/-- The session state after the update and life-loss phases of the loop
body (lines 178-186): score accumulation, then `if ball.y >= H`, decrement
lives and either fully reset the session (`lives == 0`) or re-anchor just
the ball on the paddle. -/
def lifePhase (inp : Input) (s : State) : State :=
  if (H : ℚ) ≤ (updTriple inp s).1.y then
    if s.lives - 1 = 0 then State.init
    else
      { score := s.score + (updTriple inp s).2.2
        lives := s.lives - 1
        paddle := paddleNext inp s
        ball := Ball.reset (paddleNext inp s)
        bricks := (updTriple inp s).2.1 }
  else
    { score := s.score + (updTriple inp s).2.2
      lives := s.lives
      paddle := paddleNext inp s
      ball := (updTriple inp s).1
      bricks := (updTriple inp s).2.1 }

/-- One iteration of the `Breakout.run` loop body after input processing
(lines 178-189): the update and life-loss phases, then level-clear
regeneration (lines 187-189) with the `*= 1.1` velocity scaling. -/
def tick (inp : Input) (s : State) : State :=
  if (lifePhase inp s).bricks = [] then
    { lifePhase inp s with
      bricks := initBricks
      ball := { (lifePhase inp s).ball with
                dx := (lifePhase inp s).ball.dx * (11/10)
                dy := (lifePhase inp s).ball.dy * (11/10) } }
  else lifePhase inp s

/-- Run a whole input sequence from the initial session state. -/
def run (inps : List Input) : State :=
  inps.foldl (fun s i => tick i s) State.init

end Breakout

namespace Flappy

/- Constants from `flappy_bird_game.py`: `W, H = 64, 32`, `GRAVITY = 0.16`,
`FLAP_VY = -1.3`, `VY_CLAMP = -2.0`, `PIPE_WIDTH = 3`, `GAP_HEIGHT = 11`. -/

def W : ℤ := 64
def H : ℤ := 32
def GRAVITY : ℚ := 16/100
def FLAP_VY : ℚ := -(13/10)
def VY_CLAMP : ℚ := -2
def PIPE_WIDTH : ℤ := 3
def GAP_HEIGHT : ℤ := 11

/-- The bird sprite is 8 wide (`len(PATTERN[0])`) and 4 tall. -/
def BIRD_W : ℤ := 8
def BIRD_H : ℤ := 4

/-- `Bird`: float vertical position/velocity plus the flap cooldown flag
(`x` stays at `W // 4`). -/
structure Bird where
  x : ℚ
  y : ℚ
  vy : ℚ
  cool : Bool
deriving DecidableEq, Repr

/-- `Bird.__init__`: `x = W // 4`, `y = H // 2`, `vy = 0.0`, `cool = False`. -/
def Bird.init : Bird := { x := 16, y := 16, vy := 0, cool := false }

/-- `Bird.flap`: apply the flap impulse only when the cooldown flag is
clear, and set the flag. -/
def Bird.flap (b : Bird) : Bird :=
  if b.cool then b else { b with vy := FLAP_VY, cool := true }

/-- `Bird.release_flap`: clear the cooldown flag. -/
def Bird.releaseFlap (b : Bird) : Bird := { b with cool := false }

/-- `Bird.update`: `vy += GRAVITY; vy = max(vy, VY_CLAMP); y += vy`. -/
def Bird.update (b : Bird) : Bird :=
  let vy := max (b.vy + GRAVITY) VY_CLAMP
  { b with vy := vy, y := b.y + vy }

/-- `Pipe`: integer horizontal position and gap top. -/
structure Pipe where
  x : ℤ
  gapTop : ℤ
deriving DecidableEq, Repr

/-- `Pipe.collides(bird)`: with bird bbox `(bx0, by0, bx1, by1) = (x, y,
x + w - 1, y + h - 1)`, collide iff the boxes share a column with the pipe
band and the bird's box does not meet the gap band:
`in_x and not in_gap`. -/
def Pipe.collides (p : Pipe) (b : Bird) : Bool :=
  let bx0 := b.x
  let by0 := b.y
  let bx1 := b.x + (BIRD_W : ℚ) - 1
  let by1 := b.y + (BIRD_H : ℚ) - 1
  let inX := decide ((p.x : ℚ) ≤ bx1) && decide (bx0 ≤ ((p.x + PIPE_WIDTH - 1 : ℤ) : ℚ))
  let inGap := decide ((p.gapTop : ℚ) ≤ by1) && decide (by0 ≤ ((p.gapTop + GAP_HEIGHT - 1 : ℤ) : ℚ))
  inX && !inGap

end Flappy

namespace DinoGame

/- Constants from `google_dinosaur_game.py`: `FPS = 20`, `GRAVITY = -0.8`,
`JUMP_STRENGTH = 8`, `GROUND_Y = H - 4 = 28`, `DINO_W, DINO_H = 6, 6`. -/

def FPS : ℚ := 20
def GRAVITY : ℚ := -(8/10)
def JUMP_STRENGTH : ℚ := 8
def GROUND_Y : ℤ := 28
def DINO_H : ℚ := 6

/-- The dinosaur's vertical state. -/
structure Dino where
  y : ℚ
  vy : ℚ
  onGround : Bool
deriving DecidableEq, Repr

/-- `Dino.update(dt)`: airborne bodies integrate gravity with no velocity
clamp, then snap to the ground line. -/
def Dino.update (dt : ℚ) (d : Dino) : Dino :=
  if d.onGround then d
  else
    let vy := d.vy + GRAVITY * dt * FPS
    let y := d.y - vy * dt * FPS
    if (GROUND_Y : ℚ) - DINO_H ≤ y then
      { y := (GROUND_Y : ℚ) - DINO_H, vy := 0, onGround := true }
    else
      { y := y, vy := vy, onGround := false }

/-- An axis-aligned rectangle as read by the overlap test of the main loop
(lines 157-161): `x`, `y`, width, height. -/
structure Rect where
  x : ℚ
  y : ℚ
  w : ℚ
  h : ℚ
deriving DecidableEq, Repr

/-- The collision test of the main loop, over exactly the fields it reads:
`a.x < b.x + b.w and a.x + a.w > b.x and a.y < b.y + b.h and a.y + a.h > b.y`. -/
def overlaps (a b : Rect) : Bool :=
  decide (a.x < b.x + b.w) && decide (b.x < a.x + a.w) &&
  decide (a.y < b.y + b.h) && decide (b.y < a.y + a.h)

end DinoGame

namespace Subway

/- Constants from `subway_surfers.py`: `GROUND_Y = H - 4 = 28`,
`COIN_SZ = 2`, runner size `4 × 6`. -/

def GROUND_Y : ℤ := 28

/-- The runner's fields read by the coin-collision code. -/
structure Runner where
  x : ℚ
  y : ℚ
deriving DecidableEq, Repr

/-- `Runner.pixels`: the `4 × 6` block at `(int(x - w // 2), int(y))`. -/
def Runner.pixels (r : Runner) : List (ℤ × ℤ) :=
  let x0 := pyTrunc (r.x - 2)
  let y0 := pyTrunc r.y
  (List.range 4).flatMap fun i =>
    (List.range 6).map fun j => (x0 + (i : ℤ), y0 + (j : ℤ))

/-- A coin; only `x` varies (its pixel rows are fixed by `GROUND_Y`). -/
structure Coin where
  x : ℚ
deriving DecidableEq, Repr

/-- `Coin.pixels`: the `2 × 2` block at `(int(x - sz // 2), GROUND_Y - sz - 1)`. -/
def Coin.pixels (c : Coin) : List (ℤ × ℤ) :=
  let x0 := pyTrunc (c.x - 1)
  (List.range 2).flatMap fun i =>
    (List.range 2).map fun j => (x0 + (i : ℤ), (GROUND_Y - 2 - 1) + (j : ℤ))

/-- The coin-collision test of line 184: any coin pixel is a runner pixel. -/
def coinHit (r : Runner) (c : Coin) : Bool :=
  c.pixels.any fun p => r.pixels.contains p

/-- Lines 183-185 of `main`: remove the first overlapping coin and add one
point, stopping at the first hit. -/
def coinStep (r : Runner) (coins : List Coin) (score : ℤ) : List Coin × ℤ :=
  match coins.find? (coinHit r) with
  | some c => (coins.erase c, score + 1)
  | none => (coins, score)

end Subway

namespace Breakout

/-- Well-formedness of a brick list: every brick's vertical band lies above
the bottom bound (true of the starting layout, whose `by` values are at
most 11). -/
def bricksWF (l : List (ℤ × ℤ)) : Prop :=
  ∀ br ∈ l, br.2 + BRICK_H ≤ H

end Breakout

example : Breakout.initBricks.length = 32 := by decide
example : Breakout.Paddle.init.x = 24 := by rfl
example : (Breakout.run []).score = 0 := by rfl

-- SCRATCH (to be removed)

/-- Evaluation helper: truncation of a rational strictly between -1 and 1 is 0. -/
theorem pyTrunc_eq_zero {q : ℚ} (h1 : -1 < q) (h2 : q < 1) : pyTrunc q = 0 := by
  unfold pyTrunc
  split_ifs with h
  · have : ⌊q⌋ = 0 := Int.floor_eq_iff.mpr (by constructor <;> simpa)
    simp [this]
  · have : ⌊-q⌋ = 0 := Int.floor_eq_iff.mpr (by push_neg at h; constructor <;> simp <;> linarith)
    simp [this]

/-- Evaluation helper: truncation of an integer-valued rational. -/
theorem pyTrunc_intCast (z : ℤ) : pyTrunc (z : ℚ) = z := by
  unfold pyTrunc
  split_ifs with h
  · simp
  · push_neg at h
    rw [← Int.cast_neg, Int.floor_intCast]
    ring

/-- Evaluation helper: truncation of zero. -/
theorem pyTrunc_zero : pyTrunc 0 = 0 :=
  pyTrunc_eq_zero (by norm_num) (by norm_num)


namespace Breakout

theorem initBricks_wf : bricksWF initBricks := by unfold bricksWF; decide

theorem initBricks_ne_nil : initBricks ≠ [] := by decide

theorem brickStep_none {bricks : List (ℤ × ℤ)} {b : Ball}
    (h : bricks.find? (brickHit b.x b.y) = none) : brickStep bricks b = (b, bricks, 0) := by
  simp [brickStep, h]

theorem brickStep_some {bricks : List (ℤ × ℤ)} {b : Ball} {br : ℤ × ℤ}
    (h : bricks.find? (brickHit b.x b.y) = some br) :
    brickStep bricks b = ({ b with dy := -b.dy }, bricks.erase br, 1) := by
  simp [brickStep, h]

theorem brickStep_y (bricks : List (ℤ × ℤ)) (b : Ball) :
    (brickStep bricks b).1.y = b.y := by
  rcases h : bricks.find? (brickHit b.x b.y) with _ | br
  · rw [brickStep_none h]
  · rw [brickStep_some h]

theorem brickStep_score (bricks : List (ℤ × ℤ)) (b : Ball) :
    (brickStep bricks b).2.2 = 0 ∨ (brickStep bricks b).2.2 = 1 := by
  rcases h : bricks.find? (brickHit b.x b.y) with _ | br
  · rw [brickStep_none h]; left; rfl
  · rw [brickStep_some h]; right; rfl

theorem updTriple_score (inp : Input) (s : State) :
    (updTriple inp s).2.2 = 0 ∨ (updTriple inp s).2.2 = 1 := by
  unfold updTriple Ball.update
  split_ifs with h
  · left; rfl
  · exact brickStep_score _ _

/-- A reference point at or below the bottom bound hits no well-formed brick. -/
theorem find?_eq_none_of_low {bricks : List (ℤ × ℤ)} (hwf : bricksWF bricks)
    {x y : ℚ} (hy : (H : ℚ) ≤ y) : bricks.find? (brickHit x y) = none := by
  refine List.find?_eq_none.mpr fun br hbr => ?_
  have hb := hwf br hbr
  intro hcontra
  simp only [brickHit, Bool.and_eq_true, decide_eq_true_eq] at hcontra
  obtain ⟨⟨⟨_, _⟩, _⟩, h4⟩ := hcontra
  have hb' : ((br.2 : ℚ)) + ((BRICK_H : ℤ) : ℚ) ≤ ((H : ℤ) : ℚ) := by exact_mod_cast hb
  simp only [H, BRICK_H] at hb' hy h4
  push_cast at h4 hb' hy
  linarith

/-- In a tick whose updated ball lies at or below the bottom bound, the
update consumed no brick and scored nothing. -/
theorem updTriple_out {inp : Input} {s : State} (hwf : bricksWF s.bricks)
    (hy : (H : ℚ) ≤ (updTriple inp s).1.y) :
    (updTriple inp s).2.1 = s.bricks ∧ (updTriple inp s).2.2 = 0 := by
  unfold updTriple Ball.update at hy ⊢
  split_ifs at hy ⊢ with h
  · exact ⟨rfl, rfl⟩
  · have hym : (H : ℚ) ≤ (Ball.paddleBounce (paddleNext inp s)
        (Ball.walls (Ball.move (ballIn inp s)))).y := by
      rwa [brickStep_y] at hy
    have hnone := find?_eq_none_of_low hwf (x := (Ball.paddleBounce (paddleNext inp s)
        (Ball.walls (Ball.move (ballIn inp s)))).x) hym
    rw [brickStep_none hnone]
    exact ⟨rfl, rfl⟩

theorem tick_eq_fullReset {inp : Input} {s : State}
    (hy : (H : ℚ) ≤ (updTriple inp s).1.y) (hl : s.lives - 1 = 0) :
    tick inp s = State.init := by
  have hb : ¬ State.init.bricks = [] := initBricks_ne_nil
  simp only [tick, lifePhase, if_pos hy, if_pos hl, if_neg hb]

theorem tick_eq_lifeLoss {inp : Input} {s : State}
    (hy : (H : ℚ) ≤ (updTriple inp s).1.y) (hl : ¬ s.lives - 1 = 0)
    (hb : ¬ (updTriple inp s).2.1 = []) :
    tick inp s =
      { score := s.score + (updTriple inp s).2.2
        lives := s.lives - 1
        paddle := paddleNext inp s
        ball := Ball.reset (paddleNext inp s)
        bricks := (updTriple inp s).2.1 } := by
  simp only [tick, lifePhase, if_pos hy, if_neg hl, if_neg hb]

theorem tick_eq_normal {inp : Input} {s : State}
    (hy : ¬ (H : ℚ) ≤ (updTriple inp s).1.y)
    (hb : ¬ (updTriple inp s).2.1 = []) :
    tick inp s =
      { score := s.score + (updTriple inp s).2.2
        lives := s.lives
        paddle := paddleNext inp s
        ball := (updTriple inp s).1
        bricks := (updTriple inp s).2.1 } := by
  simp only [tick, lifePhase, if_neg hy, if_neg hb]

theorem tick_eq_regen {inp : Input} {s : State}
    (hy : ¬ (H : ℚ) ≤ (updTriple inp s).1.y)
    (hb : (updTriple inp s).2.1 = []) :
    tick inp s =
      { score := s.score + (updTriple inp s).2.2
        lives := s.lives
        paddle := paddleNext inp s
        ball := { (updTriple inp s).1 with
                  dx := (updTriple inp s).1.dx * (11/10)
                  dy := (updTriple inp s).1.dy * (11/10) }
        bricks := initBricks } := by
  simp only [tick, lifePhase, if_neg hy, if_pos hb]

/-- Per-tick score evolution: reset to 0, unchanged, or one point. -/
theorem tick_score_cases (inp : Input) (s : State) :
    (tick inp s).score = 0 ∨ (tick inp s).score = s.score ∨
      (tick inp s).score = s.score + 1 := by
  have hd := updTriple_score inp s
  by_cases hy : (H : ℚ) ≤ (updTriple inp s).1.y
  · by_cases hl : s.lives - 1 = 0
    · rw [tick_eq_fullReset hy hl]; left; rfl
    · by_cases hb : (updTriple inp s).2.1 = []
      · simp only [tick, lifePhase, if_pos hy, if_neg hl, if_pos hb]
        rcases hd with h | h <;> rw [h] <;> simp
      · rw [tick_eq_lifeLoss hy hl hb]
        rcases hd with h | h <;> rw [h] <;> simp
  · by_cases hb : (updTriple inp s).2.1 = []
    · rw [tick_eq_regen hy hb]
      rcases hd with h | h <;> rw [h] <;> simp
    · rw [tick_eq_normal hy hb]
      rcases hd with h | h <;> rw [h] <;> simp

theorem run_score_nonneg (inps : List Input) : 0 ≤ (run inps).score := by
  suffices h : ∀ s : State, 0 ≤ s.score →
      0 ≤ (inps.foldl (fun s i => tick i s) s).score by
    exact h State.init (by rfl)
  induction inps with
  | nil => intro s hs; simpa
  | cons i l ih =>
    intro s hs
    simp only [List.foldl_cons]
    refine ih _ ?_
    rcases tick_score_cases i s with h | h | h <;> rw [h] <;> omega

end Breakout

/-- Claim C1: for every sequence of ticks, the session score is a
non-negative integer; per tick it either stays, gains exactly the one-point
per-event amount (a consumed brick or coin), or — exactly at a full session
reset (lives exhausted) — is set back to its initial value 0. -/
theorem score_nonneg_nondecreasing :
    (∀ inps : List Breakout.Input, 0 ≤ (Breakout.run inps).score) ∧
    (∀ (inp : Breakout.Input) (s : Breakout.State),
      (Breakout.fullResetTick inp s = true → (Breakout.tick inp s).score = 0) ∧
      (Breakout.fullResetTick inp s = false →
        (Breakout.tick inp s).score = s.score ∨
          (Breakout.tick inp s).score = s.score + 1)) ∧
    (∀ (r : Subway.Runner) (coins : List Subway.Coin) (sc : ℤ),
      (Subway.coinStep r coins sc).2 = sc ∨ (Subway.coinStep r coins sc).2 = sc + 1) := by
  refine ⟨Breakout.run_score_nonneg, fun inp s => ⟨?_, ?_⟩, fun r coins sc => ?_⟩
  · intro hfull
    simp only [Breakout.fullResetTick, Bool.and_eq_true, decide_eq_true_eq] at hfull
    rw [Breakout.tick_eq_fullReset hfull.1 hfull.2]; rfl
  · intro hfull
    simp only [Breakout.fullResetTick, Bool.and_eq_true, decide_eq_true_eq,
      not_and] at hfull
    rw [Bool.and_eq_false_iff] at hfull
    have hd := Breakout.updTriple_score inp s
    by_cases hy : (Breakout.H : ℚ) ≤ (Breakout.updTriple inp s).1.y
    · have hl : ¬ s.lives - 1 = 0 := by
        rcases hfull with h | h
        · exact absurd (decide_eq_true hy) (by simpa using h)
        · simpa using h
      by_cases hb : (Breakout.updTriple inp s).2.1 = []
      · simp only [Breakout.tick, Breakout.lifePhase, if_pos hy, if_neg hl, if_pos hb]
        rcases hd with h | h <;> rw [h] <;> simp
      · rw [Breakout.tick_eq_lifeLoss hy hl hb]
        rcases hd with h | h <;> rw [h] <;> simp
    · by_cases hb : (Breakout.updTriple inp s).2.1 = []
      · rw [Breakout.tick_eq_regen hy hb]
        rcases hd with h | h <;> rw [h] <;> simp
      · rw [Breakout.tick_eq_normal hy hb]
        rcases hd with h | h <;> rw [h] <;> simp
  · unfold Subway.coinStep
    rcases h : coins.find? (Subway.coinHit r) with _ | c
    · left; rfl
    · right; rfl

namespace Breakout

theorem length_erase_add_one_of_mem {α : Type _} [BEq α] [LawfulBEq α] {a : α}
    {l : List α} (h : a ∈ l) : (l.erase a).length + 1 = l.length := by
  have h1 := List.length_erase_of_mem h
  have h2 : 0 < l.length := List.length_pos_of_mem h
  omega

theorem find?_append_first {α : Type _} (p : α → Bool) (l₁ l₂ : List α) (a : α)
    (h1 : ∀ q ∈ l₁, p q = false) (h2 : p a = true) :
    (l₁ ++ a :: l₂).find? p = some a := by
  induction l₁ with
  | nil => simpa using List.find?_cons_of_pos l₂ h2
  | cons q l ih =>
    have hq : ¬ p q = true := by simp [h1 q (by simp)]
    simp only [List.cons_append]
    rw [List.find?_cons_of_neg _ hq]
    exact ih fun r hr => h1 r (by simp [hr])

theorem erase_append_first {α : Type _} [BEq α] [LawfulBEq α] (p : α → Bool) (l₁ l₂ : List α)
    (a : α) (h1 : ∀ q ∈ l₁, p q = false) (h2 : p a = true) :
    (l₁ ++ a :: l₂).erase a = l₁ ++ l₂ := by
  have ha : a ∉ l₁ := fun hmem => by simp [h1 a hmem] at h2
  rw [List.erase_append_right _ ha, List.erase_cons_head]

/-- A first hit in iteration order is the one consumed. -/
theorem brickStep_first (b : Ball) (l₁ l₂ : List (ℤ × ℤ)) (br : ℤ × ℤ)
    (h1 : ∀ q ∈ l₁, brickHit b.x b.y q = false) (h2 : brickHit b.x b.y br = true) :
    brickStep (l₁ ++ br :: l₂) b = ({ b with dy := -b.dy }, l₁ ++ l₂, 1) := by
  have hf := find?_append_first (brickHit b.x b.y) l₁ l₂ br h1 h2
  rw [brickStep_some hf, erase_append_first (brickHit b.x b.y) l₁ l₂ br h1 h2]

end Breakout

namespace Subway

theorem coinStep_none {r : Runner} {coins : List Coin} {sc : ℤ}
    (h : coins.find? (coinHit r) = none) : coinStep r coins sc = (coins, sc) := by
  simp [coinStep, h]

theorem coinStep_some {r : Runner} {coins : List Coin} {sc : ℤ} {c : Coin}
    (h : coins.find? (coinHit r) = some c) :
    coinStep r coins sc = (coins.erase c, sc + 1) := by
  simp [coinStep, h]

/-- The first overlapping coin in iteration order is the one consumed. -/
theorem coinStep_first (r : Runner) (l₁ l₂ : List Coin) (c : Coin) (sc : ℤ)
    (h1 : ∀ q ∈ l₁, coinHit r q = false) (h2 : coinHit r c = true) :
    coinStep r (l₁ ++ c :: l₂) sc = (l₁ ++ l₂, sc + 1) := by
  have hf := Breakout.find?_append_first (coinHit r) l₁ l₂ c h1 h2
  rw [coinStep_some hf, Breakout.erase_append_first (coinHit r) l₁ l₂ c h1 h2]

end Subway

/-- Claim C2: in a single tick, if the ball's reference point lies inside
exactly one brick's bounds, exactly one brick is removed with score delta
+1; if inside none, no brick is removed and the delta is 0; in all cases at
most one brick is removed, and the one removed is the first in iteration
(creation) order whose bounds contain the point; the runner's coin loop
behaves the same way with its pixel-overlap test. -/
theorem consumable_exclusivity (b : Breakout.Ball) (bricks : List (ℤ × ℤ)) :
    ((Breakout.brickStep bricks b).2.2 = 0 ∨ (Breakout.brickStep bricks b).2.2 = 1) ∧
    bricks.length ≤ (Breakout.brickStep bricks b).2.1.length + 1 ∧
    (bricks.countP (Breakout.brickHit b.x b.y) = 0 →
      (Breakout.brickStep bricks b).2.1 = bricks ∧ (Breakout.brickStep bricks b).2.2 = 0) ∧
    (bricks.countP (Breakout.brickHit b.x b.y) = 1 →
      (Breakout.brickStep bricks b).2.2 = 1 ∧
      (Breakout.brickStep bricks b).2.1.length + 1 = bricks.length ∧
      ∃ br ∈ bricks, Breakout.brickHit b.x b.y br = true ∧
        (Breakout.brickStep bricks b).2.1 = bricks.erase br) ∧
    (∀ (l₁ l₂ : List (ℤ × ℤ)) (br : ℤ × ℤ),
      bricks = l₁ ++ br :: l₂ →
      (∀ q ∈ l₁, Breakout.brickHit b.x b.y q = false) →
      Breakout.brickHit b.x b.y br = true →
      Breakout.brickStep bricks b = ({ b with dy := -b.dy }, l₁ ++ l₂, 1)) ∧
    (∀ (r : Subway.Runner) (coins : List Subway.Coin) (sc : ℤ),
      coins.countP (Subway.coinHit r) = 0 →
      Subway.coinStep r coins sc = (coins, sc)) ∧
    (∀ (r : Subway.Runner) (l₁ l₂ : List Subway.Coin) (c : Subway.Coin) (sc : ℤ),
      (∀ q ∈ l₁, Subway.coinHit r q = false) → Subway.coinHit r c = true →
      Subway.coinStep r (l₁ ++ c :: l₂) sc = (l₁ ++ l₂, sc + 1)) := by
  refine ⟨Breakout.brickStep_score bricks b, ?_, ?_, ?_, ?_, ?_, Subway.coinStep_first⟩
  · rcases h : bricks.find? (Breakout.brickHit b.x b.y) with _ | br
    · rw [Breakout.brickStep_none h]
      show bricks.length ≤ bricks.length + 1
      omega
    · rw [Breakout.brickStep_some h]
      have h5 := Breakout.length_erase_add_one_of_mem (List.mem_of_find?_eq_some h)
      show bricks.length ≤ (bricks.erase br).length + 1
      omega
  · intro h0
    have hnone : bricks.find? (Breakout.brickHit b.x b.y) = none :=
      List.find?_eq_none.mpr (by simpa using List.countP_eq_zero.mp h0)
    rw [Breakout.brickStep_none hnone]
    exact ⟨rfl, rfl⟩
  · intro h1
    have hpos : 0 < bricks.countP (Breakout.brickHit b.x b.y) := by omega
    obtain ⟨a, ha, hpa⟩ := List.countP_pos_iff.mp hpos
    have hsome : (bricks.find? (Breakout.brickHit b.x b.y)).isSome := by
      rw [List.find?_isSome]; exact ⟨a, ha, hpa⟩
    obtain ⟨br, hbr⟩ := Option.isSome_iff_exists.mp hsome
    have hmem := List.mem_of_find?_eq_some hbr
    rw [Breakout.brickStep_some hbr]
    refine ⟨rfl, ?_, br, hmem, List.find?_some hbr, rfl⟩
    show (bricks.erase br).length + 1 = bricks.length
    exact Breakout.length_erase_add_one_of_mem hmem
  · intro l₁ l₂ br hsplit h1 h2
    rw [hsplit]
    exact Breakout.brickStep_first b l₁ l₂ br h1 h2
  · intro r coins sc h0
    exact Subway.coinStep_none
      (List.find?_eq_none.mpr (by simpa using List.countP_eq_zero.mp h0))

/-- Claim C10: consuming a brick has the undocumented side effect of
inverting the ball's vertical velocity in the same tick (relative to its
value after the move/wall/paddle phases); a tick that consumes no brick
leaves that velocity and the brick list unchanged. -/
theorem brick_bounce_side_effect (p : Breakout.Paddle) (bricks : List (ℤ × ℤ))
    (b : Breakout.Ball) (hst : b.stuck = false) :
    ((Breakout.Ball.update p bricks b).2.2 = 1 →
      (Breakout.Ball.update p bricks b).1.dy
        = -(Breakout.Ball.paddleBounce p (Breakout.Ball.walls (Breakout.Ball.move b))).dy ∧
      (Breakout.Ball.update p bricks b).2.1.length + 1 = bricks.length) ∧
    ((Breakout.Ball.update p bricks b).2.2 = 0 →
      (Breakout.Ball.update p bricks b).1.dy
        = (Breakout.Ball.paddleBounce p (Breakout.Ball.walls (Breakout.Ball.move b))).dy ∧
      (Breakout.Ball.update p bricks b).2.1 = bricks) := by
  unfold Breakout.Ball.update
  rw [if_neg (by simp [hst])]
  rcases h : bricks.find? (Breakout.brickHit
      (Breakout.Ball.paddleBounce p (Breakout.Ball.walls (Breakout.Ball.move b))).x
      (Breakout.Ball.paddleBounce p (Breakout.Ball.walls (Breakout.Ball.move b))).y)
    with _ | br
  · rw [Breakout.brickStep_none h]
    refine ⟨fun h1 => ?_, fun _ => ⟨rfl, rfl⟩⟩
    simp at h1
  · rw [Breakout.brickStep_some h]
    refine ⟨fun _ => ⟨rfl, ?_⟩, fun h0 => ?_⟩
    · show (bricks.erase br).length + 1 = bricks.length
      exact Breakout.length_erase_add_one_of_mem (List.mem_of_find?_eq_some h)
    · simp at h0

/-- Witness for C10 at a concrete state: a ball at (1, 1) moving straight
down consumes the single brick at (0, 2) and inverts its vertical velocity. -/
theorem brick_bounce_side_effect_witness :
    (Breakout.Ball.update Breakout.Paddle.init [(0, 2)] ⟨1, 1, 0, 1, false⟩).1.dy
      = -(Breakout.Ball.paddleBounce Breakout.Paddle.init
          (Breakout.Ball.walls (Breakout.Ball.move ⟨1, 1, 0, 1, false⟩))).dy ∧
    (Breakout.Ball.update Breakout.Paddle.init [(0, 2)] ⟨1, 1, 0, 1, false⟩).2.1.length + 1
      = 1 :=
  (brick_bounce_side_effect Breakout.Paddle.init [(0, 2)] ⟨1, 1, 0, 1, false⟩ rfl).1
    (by norm_num [Breakout.Ball.update, Breakout.Ball.move, Breakout.Ball.walls,
      Breakout.Ball.paddleBounce, Breakout.paddleCond, Breakout.paddleOffset,
      Breakout.brickStep, Breakout.brickHit, Breakout.Paddle.init, Breakout.W, Breakout.H,
      Breakout.PADDLE_W, Breakout.PADDLE_H, Breakout.BALL_SZ, Breakout.BALL_SPEED,
      Breakout.BRICK_W, Breakout.BRICK_H, List.find?])

namespace Breakout

/-- A score delta of zero means the brick list was left unchanged. -/
theorem updTriple_d0 {inp : Input} {s : State}
    (h : (updTriple inp s).2.2 = 0) : (updTriple inp s).2.1 = s.bricks := by
  unfold updTriple Ball.update at h ⊢
  split_ifs at h ⊢ with hst
  · rfl
  · rcases hf : s.bricks.find? (brickHit
        (Ball.paddleBounce (paddleNext inp s) (Ball.walls (Ball.move (ballIn inp s)))).x
        (Ball.paddleBounce (paddleNext inp s) (Ball.walls (Ball.move (ballIn inp s)))).y)
      with _ | br
    · rw [brickStep_none hf]
    · rw [brickStep_some hf] at h
      simp at h

end Breakout

/-- Claim C5: when the ball exits through the bottom boundary with more
than one life remaining, only the ball is re-anchored — score and the
remaining bricks are preserved and lives drop by one; when it exits on the
last life, the whole session resets: score 0, lives back to 3, bricks back
to the full starting layout. -/
theorem life_loss_policy (inp : Breakout.Input) (s : Breakout.State)
    (hwf : Breakout.bricksWF s.bricks) (hne : s.bricks ≠ [])
    (hout : (Breakout.H : ℚ) ≤ (Breakout.updTriple inp s).1.y) :
    (1 < s.lives →
      (Breakout.tick inp s).score = s.score ∧
      (Breakout.tick inp s).lives = s.lives - 1 ∧
      (Breakout.tick inp s).bricks = s.bricks ∧
      (Breakout.tick inp s).ball = Breakout.Ball.reset (Breakout.paddleNext inp s)) ∧
    (s.lives = 1 →
      Breakout.tick inp s = Breakout.State.init ∧
      Breakout.State.init.score = 0 ∧
      Breakout.State.init.lives = Breakout.LIVES_START ∧
      Breakout.State.init.bricks = Breakout.initBricks) := by
  obtain ⟨hbr, hd⟩ := Breakout.updTriple_out hwf hout
  constructor
  · intro hl
    have hl' : ¬ s.lives - 1 = 0 := by omega
    have hb : ¬ (Breakout.updTriple inp s).2.1 = [] := by rw [hbr]; exact hne
    rw [Breakout.tick_eq_lifeLoss hout hl' hb]
    refine ⟨?_, rfl, hbr, rfl⟩
    show s.score + (Breakout.updTriple inp s).2.2 = s.score
    rw [hd]; ring
  · intro hl
    have hl' : s.lives - 1 = 0 := by omega
    exact ⟨Breakout.tick_eq_fullReset hout hl', rfl, rfl, rfl⟩

/-- Witness for C5: a ball at (30, 31) moving (1, 1) leaves the arena this
tick; with 3 lives the score (7) and the single remaining brick survive and
only the ball resets. -/
theorem life_loss_policy_witness :
    (Breakout.tick ⟨0, false⟩
        ⟨7, 3, Breakout.Paddle.init, ⟨30, 31, 1, 1, false⟩, [(0, 2)]⟩).score = 7 ∧
    (Breakout.tick ⟨0, false⟩
        ⟨7, 3, Breakout.Paddle.init, ⟨30, 31, 1, 1, false⟩, [(0, 2)]⟩).bricks = [(0, 2)] := by
  have h := life_loss_policy ⟨0, false⟩
      ⟨7, 3, Breakout.Paddle.init, ⟨30, 31, 1, 1, false⟩, [(0, 2)]⟩
      (by unfold Breakout.bricksWF; decide) (by decide)
      (by norm_num [Breakout.updTriple, Breakout.ballIn, Breakout.paddleNext,
        Breakout.Paddle.update, Breakout.Paddle.init, Breakout.Ball.update,
        Breakout.Ball.move, Breakout.Ball.walls, Breakout.Ball.paddleBounce,
        Breakout.paddleCond, Breakout.paddleOffset, Breakout.brickStep, Breakout.brickHit,
        Breakout.W, Breakout.H, Breakout.PADDLE_W, Breakout.PADDLE_H, Breakout.BALL_SZ,
        Breakout.BALL_SPEED, Breakout.BRICK_W, Breakout.BRICK_H, pyTrunc_zero,
        sup_eq_max, inf_eq_min, max_def, min_def, List.find?])
  obtain ⟨hs, -, hb, -⟩ := h.1 (by norm_num)
  exact ⟨hs, hb⟩

/-- Claim C4 counterexample: a session whose ball carries the post-clear
speed (dx = dy = 1.1) loses a life with 3 lives left; the tick keeps the
score (so it is not a full session reset) yet the ball's velocity is put
back to the base speed — the speed multiplier is reset by an ordinary life
loss, not only by a full session reset. -/
theorem speed_multiplier_reset_counterexample :
    ((⟨5, 3, Breakout.Paddle.init, ⟨30, 31, 11/10, 11/10, false⟩, Breakout.initBricks⟩ :
        Breakout.State)).ball.dx = 11/10 ∧
    (Breakout.tick ⟨0, false⟩ ⟨5, 3, Breakout.Paddle.init, ⟨30, 31, 11/10, 11/10, false⟩,
        Breakout.initBricks⟩).ball.dx = Breakout.BALL_SPEED ∧
    (Breakout.tick ⟨0, false⟩ ⟨5, 3, Breakout.Paddle.init, ⟨30, 31, 11/10, 11/10, false⟩,
        Breakout.initBricks⟩).ball.dy = -Breakout.BALL_SPEED ∧
    (Breakout.tick ⟨0, false⟩ ⟨5, 3, Breakout.Paddle.init, ⟨30, 31, 11/10, 11/10, false⟩,
        Breakout.initBricks⟩).lives = 3 - 1 ∧
    (Breakout.tick ⟨0, false⟩ ⟨5, 3, Breakout.Paddle.init, ⟨30, 31, 11/10, 11/10, false⟩,
        Breakout.initBricks⟩).score = 5 := by
  have hout : (Breakout.H : ℚ) ≤ (Breakout.updTriple ⟨0, false⟩
      ⟨5, 3, Breakout.Paddle.init, ⟨30, 31, 11/10, 11/10, false⟩,
        Breakout.initBricks⟩).1.y := by
    norm_num [Breakout.updTriple, Breakout.ballIn, Breakout.paddleNext,
      Breakout.Paddle.update, Breakout.Paddle.init, Breakout.Ball.update,
      Breakout.Ball.move, Breakout.Ball.walls, Breakout.Ball.paddleBounce,
      Breakout.paddleCond, Breakout.paddleOffset, Breakout.brickStep, Breakout.brickHit,
      Breakout.Paddle.init, Breakout.initBricks, Breakout.W, Breakout.H,
      Breakout.PADDLE_W, Breakout.PADDLE_H, Breakout.BALL_SZ, Breakout.BALL_SPEED,
      Breakout.BRICK_W, Breakout.BRICK_H, Breakout.BRICK_ROWS, Breakout.BRICK_COLS,
      pyTrunc_zero, sup_eq_max, inf_eq_min, max_def, min_def, List.find?]
  obtain ⟨hbr, hd⟩ := Breakout.updTriple_out (s := ⟨5, 3, Breakout.Paddle.init,
    ⟨30, 31, 11/10, 11/10, false⟩, Breakout.initBricks⟩) Breakout.initBricks_wf hout
  have hb : ¬ (Breakout.updTriple ⟨0, false⟩ ⟨5, 3, Breakout.Paddle.init,
      ⟨30, 31, 11/10, 11/10, false⟩, Breakout.initBricks⟩).2.1 = [] := by
    rw [hbr]; exact Breakout.initBricks_ne_nil
  rw [Breakout.tick_eq_lifeLoss hout (by norm_num) hb]
  refine ⟨rfl, rfl, rfl, rfl, ?_⟩
  show (5 : ℤ) + (Breakout.updTriple ⟨0, false⟩ ⟨5, 3, Breakout.Paddle.init,
      ⟨30, 31, 11/10, 11/10, false⟩, Breakout.initBricks⟩).2.2 = 5
  rw [hd]
  norm_num

/-- Claim C4 (amended): in the tick where the last brick is removed, the
layout regenerates to the full initial 32 bricks and both velocity
components are scaled by the fixed factor 1.1 > 1, so the speed strictly
grows and compounds across consecutive clears; the multiplier is however
reset to the base speed by any bottom-exit of the ball — an ordinary life
loss as well as a full session reset — not only by the latter. -/
theorem level_clear_policy (inp : Breakout.Input) (s : Breakout.State)
    (hwf : Breakout.bricksWF s.bricks) (hne : s.bricks ≠ []) :
    ((Breakout.updTriple inp s).2.1 = [] →
      (Breakout.tick inp s).bricks = Breakout.initBricks ∧
      Breakout.initBricks.length = 32 ∧
      (Breakout.tick inp s).ball.dx = (Breakout.updTriple inp s).1.dx * (11/10) ∧
      (Breakout.tick inp s).ball.dy = (Breakout.updTriple inp s).1.dy * (11/10) ∧
      ((Breakout.updTriple inp s).1.dy ≠ 0 →
        |(Breakout.updTriple inp s).1.dy| < |(Breakout.tick inp s).ball.dy|) ∧
      (Breakout.tick inp s).score = s.score + 1 ∧
      (Breakout.tick inp s).lives = s.lives) ∧
    ((Breakout.H : ℚ) ≤ (Breakout.updTriple inp s).1.y →
      (Breakout.tick inp s).ball.dx = Breakout.BALL_SPEED ∧
      (Breakout.tick inp s).ball.dy = -Breakout.BALL_SPEED) := by
  constructor
  · intro hclear
    have hy : ¬ (Breakout.H : ℚ) ≤ (Breakout.updTriple inp s).1.y := by
      intro hy
      obtain ⟨hbr, -⟩ := Breakout.updTriple_out hwf hy
      rw [hbr] at hclear
      exact hne hclear
    have hd : (Breakout.updTriple inp s).2.2 = 1 := by
      rcases Breakout.updTriple_score inp s with h0 | h1
      · exact absurd hclear (by rw [Breakout.updTriple_d0 h0]; exact hne)
      · exact h1
    rw [Breakout.tick_eq_regen hy hclear]
    refine ⟨rfl, by decide, rfl, rfl, ?_, ?_, rfl⟩
    · intro hdy
      show |(Breakout.updTriple inp s).1.dy| < |(Breakout.updTriple inp s).1.dy * (11/10)|
      rw [abs_mul, abs_of_pos (by norm_num : (0:ℚ) < 11/10)]
      have hpos : 0 < |(Breakout.updTriple inp s).1.dy| := abs_pos.mpr hdy
      nlinarith
    · show s.score + (Breakout.updTriple inp s).2.2 = s.score + 1
      rw [hd]
  · intro hout
    obtain ⟨hbr, -⟩ := Breakout.updTriple_out hwf hout
    have hb : ¬ (Breakout.updTriple inp s).2.1 = [] := by rw [hbr]; exact hne
    by_cases hl : s.lives - 1 = 0
    · rw [Breakout.tick_eq_fullReset hout hl]
      exact ⟨rfl, rfl⟩
    · rw [Breakout.tick_eq_lifeLoss hout hl hb]
      exact ⟨rfl, rfl⟩

/-- Witness for C4: a session whose single remaining brick at (0, 2) is
consumed this tick regenerates the full 32-brick layout with the velocity
scaled by 1.1. -/
theorem level_clear_policy_witness :
    (Breakout.tick ⟨0, false⟩
        ⟨0, 3, Breakout.Paddle.init, ⟨1, 1, 0, 1, false⟩, [(0, 2)]⟩).bricks
      = Breakout.initBricks ∧
    (Breakout.tick ⟨0, false⟩
        ⟨0, 3, Breakout.Paddle.init, ⟨1, 1, 0, 1, false⟩, [(0, 2)]⟩).ball.dy
      = (Breakout.updTriple ⟨0, false⟩
          ⟨0, 3, Breakout.Paddle.init, ⟨1, 1, 0, 1, false⟩, [(0, 2)]⟩).1.dy * (11/10) := by
  have h := (level_clear_policy ⟨0, false⟩
      ⟨0, 3, Breakout.Paddle.init, ⟨1, 1, 0, 1, false⟩, [(0, 2)]⟩
      (by unfold Breakout.bricksWF; decide) (by decide)).1
      (by norm_num [Breakout.updTriple, Breakout.ballIn, Breakout.paddleNext,
        Breakout.Paddle.update, Breakout.Paddle.init, Breakout.Ball.update,
        Breakout.Ball.move, Breakout.Ball.walls, Breakout.Ball.paddleBounce,
        Breakout.paddleCond, Breakout.paddleOffset, Breakout.brickStep, Breakout.brickHit,
        Breakout.W, Breakout.H, Breakout.PADDLE_W, Breakout.PADDLE_H, Breakout.BALL_SZ,
        Breakout.BALL_SPEED, Breakout.BRICK_W, Breakout.BRICK_H, pyTrunc_zero,
        sup_eq_max, inf_eq_min, max_def, min_def, List.find?])
  exact ⟨h.1, h.2.2.2.1⟩

namespace Breakout

/-- When the deflection guard holds, the bounce writes `dy = -BALL_SPEED`
and the computed `dx`. -/
theorem paddleBounce_pos {p : Paddle} {b : Ball} (h : paddleCond p b) :
    Ball.paddleBounce p b =
      { b with dy := -BALL_SPEED
               dx := if pyTrunc (paddleOffset p b * 4) ≠ 0
                     then (pyTrunc (paddleOffset p b * 4) : ℚ)
                     else (if 0 ≤ b.dx then 1 else -1) } := by
  simp only [Ball.paddleBounce, if_pos h]

theorem paddleBounce_neg {p : Paddle} {b : Ball} (h : ¬ paddleCond p b) :
    Ball.paddleBounce p b = b := by
  simp only [Ball.paddleBounce, if_neg h]

end Breakout

/-- Claim C6 counterexample: in the spec's scenario (default 64×32 arena,
default paddle, ball at (30, 29) with velocity (1, 1)) the next update does
NOT flip `dy` to negative: the moved ball's leading edge (y + sz = 32) is
already past the paddle band [29, 31], so no deflection occurs and `dy`
stays +1. -/
theorem paddle_scenario_counterexample :
    (Breakout.Ball.update Breakout.Paddle.init Breakout.initBricks
        ⟨30, 29, 1, 1, false⟩).1.dy = 1 ∧
    ¬ (Breakout.Ball.update Breakout.Paddle.init Breakout.initBricks
        ⟨30, 29, 1, 1, false⟩).1.dy < 0 := by
  have h : (Breakout.Ball.update Breakout.Paddle.init Breakout.initBricks
      ⟨30, 29, 1, 1, false⟩).1.dy = 1 := by
    norm_num [Breakout.Ball.update, Breakout.Ball.move, Breakout.Ball.walls,
      Breakout.Ball.paddleBounce, Breakout.paddleCond, Breakout.paddleOffset,
      Breakout.brickStep, Breakout.brickHit, Breakout.Paddle.init, Breakout.initBricks,
      Breakout.W, Breakout.H, Breakout.PADDLE_W, Breakout.PADDLE_H, Breakout.BALL_SZ,
      Breakout.BALL_SPEED, Breakout.BRICK_W, Breakout.BRICK_H, Breakout.BRICK_ROWS,
      Breakout.BRICK_COLS, pyTrunc, List.find?]
  exact ⟨h, by rw [h]; norm_num⟩

/-- Claim C6 (amended): the ball is deflected exactly when the guard holds
(moving downward, leading edge in the paddle's band, x in the paddle's
span); deflection sets `dy = -BALL_SPEED` and computes `dx` from the impact
offset ratio, which always lies in [-1/2, 1/2], truncated and scaled by 4,
falling back to ±1 preserving the incoming horizontal sign when the scaled
value truncates to 0.  The spec's concrete scenario holds one pixel higher:
a ball at (30, 28) moving (1, 1) is deflected next tick with `dy = -1` and
the fallback keeping `dx = +1`. -/
theorem paddle_deflection (p : Breakout.Paddle) (b : Breakout.Ball) :
    (¬ Breakout.paddleCond p b → Breakout.Ball.paddleBounce p b = b) ∧
    (Breakout.paddleCond p b →
      (Breakout.Ball.paddleBounce p b).dy = -Breakout.BALL_SPEED ∧
      (-(1/2) ≤ Breakout.paddleOffset p b ∧ Breakout.paddleOffset p b ≤ 1/2) ∧
      (pyTrunc (Breakout.paddleOffset p b * 4) ≠ 0 →
        (Breakout.Ball.paddleBounce p b).dx
          = (pyTrunc (Breakout.paddleOffset p b * 4) : ℚ)) ∧
      (pyTrunc (Breakout.paddleOffset p b * 4) = 0 →
        (0 ≤ b.dx → (Breakout.Ball.paddleBounce p b).dx = 1) ∧
        (b.dx < 0 → (Breakout.Ball.paddleBounce p b).dx = -1))) ∧
    ((Breakout.Ball.update Breakout.Paddle.init Breakout.initBricks
        ⟨30, 28, 1, 1, false⟩).1.dy = -1 ∧
     (Breakout.Ball.update Breakout.Paddle.init Breakout.initBricks
        ⟨30, 28, 1, 1, false⟩).1.dx = 1) := by
  refine ⟨Breakout.paddleBounce_neg, fun h => ?_, ?_⟩
  · obtain ⟨-, ⟨hx1, hx2⟩, -⟩ := id h
    rw [Breakout.paddleBounce_pos h]
    refine ⟨rfl, ⟨?_, ?_⟩, fun ht => ?_, fun ht => ⟨fun hdx => ?_, fun hdx => ?_⟩⟩
    · unfold Breakout.paddleOffset
      simp only [Breakout.PADDLE_W]
      have hd : (0 : ℚ) ≤ (b.x - (p.x : ℚ)) / ((16 : ℤ) : ℚ) :=
        div_nonneg (by linarith) (by norm_num)
      linarith
    · unfold Breakout.paddleOffset
      simp only [Breakout.PADDLE_W] at hx2 ⊢
      push_cast at hx2 ⊢
      have hd : (b.x - (p.x : ℚ)) / 16 ≤ 1 :=
        (div_le_one (by norm_num)).mpr (by linarith)
      linarith
    · show (if pyTrunc (Breakout.paddleOffset p b * 4) ≠ 0
            then (pyTrunc (Breakout.paddleOffset p b * 4) : ℚ)
            else (if 0 ≤ b.dx then 1 else -1)) = _
      rw [if_pos ht]
    · show (if pyTrunc (Breakout.paddleOffset p b * 4) ≠ 0
            then (pyTrunc (Breakout.paddleOffset p b * 4) : ℚ)
            else (if 0 ≤ b.dx then 1 else -1)) = 1
      rw [if_neg (by simpa using ht), if_pos hdx]
    · show (if pyTrunc (Breakout.paddleOffset p b * 4) ≠ 0
            then (pyTrunc (Breakout.paddleOffset p b * 4) : ℚ)
            else (if 0 ≤ b.dx then 1 else -1)) = -1
      rw [if_neg (by simpa using ht), if_neg (by linarith)]
  · constructor <;>
    norm_num [Breakout.Ball.update, Breakout.Ball.move, Breakout.Ball.walls,
      Breakout.Ball.paddleBounce, Breakout.paddleCond, Breakout.paddleOffset,
      Breakout.brickStep, Breakout.brickHit, Breakout.Paddle.init, Breakout.initBricks,
      Breakout.W, Breakout.H, Breakout.PADDLE_W, Breakout.PADDLE_H, Breakout.BALL_SZ,
      Breakout.BALL_SPEED, Breakout.BRICK_W, Breakout.BRICK_H, Breakout.BRICK_ROWS,
      Breakout.BRICK_COLS, pyTrunc_eq_zero, pyTrunc_intCast, List.find?]

namespace Flappy

/-- With no flaps, the bird's downward velocity after `n` updates from the
initial state is exactly `n * GRAVITY`: the clamp never engages on the
positive (downward) side. -/
theorem bird_vy_iterate (n : ℕ) :
    (Bird.update^[n] Bird.init).vy = n * GRAVITY := by
  induction n with
  | zero => simp [Bird.init]
  | succ k ih =>
    rw [Function.iterate_succ_apply']
    show max ((Bird.update^[k] Bird.init).vy + GRAVITY) VY_CLAMP = _
    rw [ih]
    have hk : (0 : ℚ) ≤ (k : ℚ) := Nat.cast_nonneg k
    have hge : VY_CLAMP ≤ (k : ℚ) * GRAVITY + GRAVITY := by
      simp only [VY_CLAMP, GRAVITY]
      nlinarith
    rw [max_eq_left hge]
    push_cast
    ring

end Flappy

/-- Claim C3 counterexample: a bird that flaps once from the initial state
and then falls for 21 ticks reaches vertical velocity 103/50 = 2.06, whose
magnitude exceeds the magnitude 2 of the configured clamp `VY_CLAMP`; the
code's `max(vy, VY_CLAMP)` only bounds the upward side. -/
theorem terminal_velocity_counterexample :
    |Flappy.VY_CLAMP| <
      |(Flappy.Bird.update^[21] (Flappy.Bird.flap Flappy.Bird.init)).vy| := by
  have h : (Flappy.Bird.update^[21] (Flappy.Bird.flap Flappy.Bird.init)).vy = 103/50 := by
    norm_num [Function.iterate_succ_apply, Flappy.Bird.update, Flappy.Bird.flap,
      Flappy.Bird.init, Flappy.GRAVITY, Flappy.VY_CLAMP, Flappy.FLAP_VY,
      sup_eq_max, inf_eq_min, max_def, min_def]
  rw [h, show Flappy.VY_CLAMP = -2 from rfl,
    abs_of_nonpos (by norm_num : (-2 : ℚ) ≤ 0),
    abs_of_nonneg (by norm_num : (0 : ℚ) ≤ 103/50)]
  norm_num

/-- Claim C3 (amended): the gravity-integrated update clamps the bird's
velocity only from below — after every update `VY_CLAMP ≤ vy`, bounding the
upward speed at |VY_CLAMP| — while the downward velocity grows without any
bound (it exceeds every rational along the no-flap trajectory); the dino's
airborne update applies no clamp at all, only the ground snap. -/
theorem gravity_clamp_one_sided :
    (∀ b : Flappy.Bird, Flappy.VY_CLAMP ≤ (Flappy.Bird.update b).vy) ∧
    (∀ b : Flappy.Bird, (Flappy.Bird.update b).y = b.y + (Flappy.Bird.update b).vy) ∧
    (∀ c : ℚ, ∃ n : ℕ, c < (Flappy.Bird.update^[n] Flappy.Bird.init).vy) ∧
    (∀ (dt : ℚ) (d : DinoGame.Dino), d.onGround = false →
      (DinoGame.Dino.update dt d).vy = d.vy + DinoGame.GRAVITY * dt * DinoGame.FPS ∨
      (DinoGame.Dino.update dt d).vy = 0) := by
  refine ⟨fun b => ?_, fun b => rfl, fun c => ?_, fun dt d hgr => ?_⟩
  · show Flappy.VY_CLAMP ≤ max (b.vy + Flappy.GRAVITY) Flappy.VY_CLAMP
    exact le_max_right _ _
  · obtain ⟨n, hn⟩ := exists_nat_gt (c / Flappy.GRAVITY)
    refine ⟨n, ?_⟩
    rw [Flappy.bird_vy_iterate]
    have hG : (0 : ℚ) < Flappy.GRAVITY := by norm_num [Flappy.GRAVITY]
    calc c = c / Flappy.GRAVITY * Flappy.GRAVITY := by field_simp
    _ < n * Flappy.GRAVITY := by
        exact mul_lt_mul_of_pos_right hn hG
  · simp only [DinoGame.Dino.update, hgr, Bool.false_eq_true, if_false]
    split_ifs with hsnap
    · right; rfl
    · left; rfl

/-- Claim C9: the flap acts only on the press edge — with the cooldown flag
clear it sets `vy` to the flap impulse and raises the flag; while the flag
is held every further flap is the identity (any number of repeated flaps
equals one); a release clears the flag, and a press following a release
always applies the impulse. -/
theorem flap_debounce (b : Flappy.Bird) :
    (b.cool = true → Flappy.Bird.flap b = b) ∧
    (b.cool = false →
      (Flappy.Bird.flap b).vy = Flappy.FLAP_VY ∧ (Flappy.Bird.flap b).cool = true) ∧
    (∀ n : ℕ, Flappy.Bird.flap^[n + 1] b = Flappy.Bird.flap b) ∧
    (Flappy.Bird.releaseFlap b).cool = false ∧
    (Flappy.Bird.flap (Flappy.Bird.releaseFlap b)).vy = Flappy.FLAP_VY := by
  have hidem : ∀ c : Flappy.Bird,
      Flappy.Bird.flap (Flappy.Bird.flap c) = Flappy.Bird.flap c := by
    intro c
    by_cases hc : c.cool = true
    · have h1 : Flappy.Bird.flap c = c := by unfold Flappy.Bird.flap; rw [if_pos hc]
      rw [h1, h1]
    · have h1 : Flappy.Bird.flap c =
          { c with vy := Flappy.FLAP_VY, cool := true } := by
        unfold Flappy.Bird.flap
        rw [if_neg hc]
      rw [h1]
      unfold Flappy.Bird.flap
      rw [if_pos rfl]
  refine ⟨fun hc => by unfold Flappy.Bird.flap; rw [if_pos hc],
    fun hc => ?_, fun n => ?_, rfl, ?_⟩
  · have h1 : Flappy.Bird.flap b = { b with vy := Flappy.FLAP_VY, cool := true } := by
      unfold Flappy.Bird.flap
      rw [if_neg (by simp [hc])]
    rw [h1]
    exact ⟨rfl, rfl⟩
  · induction n with
    | zero => rfl
    | succ k ih =>
      rw [Function.iterate_succ_apply', ih, hidem]
  · have h1 : Flappy.Bird.flap (Flappy.Bird.releaseFlap b) =
        { Flappy.Bird.releaseFlap b with vy := Flappy.FLAP_VY, cool := true } := by
      unfold Flappy.Bird.flap
      rw [if_neg (by simp [Flappy.Bird.releaseFlap])]
    rw [h1]

/-- Two closed rational intervals meet iff each lower end is at most the
other's upper end. -/
theorem closed_inter_nonempty {a b c d : ℚ} (hab : a ≤ b) (hcd : c ≤ d) :
    (∃ t : ℚ, a ≤ t ∧ t ≤ b ∧ c ≤ t ∧ t ≤ d) ↔ (c ≤ b ∧ a ≤ d) := by
  constructor
  · rintro ⟨t, h1, h2, h3, h4⟩
    exact ⟨le_trans h3 h2, le_trans h1 h4⟩
  · rintro ⟨h1, h2⟩
    rcases le_total a c with h | h
    · exact ⟨c, h, h1, le_refl c, hcd⟩
    · exact ⟨a, le_refl a, hab, h, h2⟩

/-- Claim C7: a pipe collision fires exactly when the bird's bounding box
meets the pipe's horizontal band while NOT meeting the safe gap band; as a
consequence an actor wholly inside the gap — including one exactly at a gap
boundary — never collides. -/
theorem gap_exclusion (p : Flappy.Pipe) (b : Flappy.Bird) :
    (Flappy.Pipe.collides p b = true ↔
      ((∃ t : ℚ, b.x ≤ t ∧ t ≤ b.x + ((Flappy.BIRD_W : ℤ) : ℚ) - 1 ∧
          (p.x : ℚ) ≤ t ∧ t ≤ ((p.x + Flappy.PIPE_WIDTH - 1 : ℤ) : ℚ)) ∧
        ¬ (∃ t : ℚ, b.y ≤ t ∧ t ≤ b.y + ((Flappy.BIRD_H : ℤ) : ℚ) - 1 ∧
          (p.gapTop : ℚ) ≤ t ∧ t ≤ ((p.gapTop + Flappy.GAP_HEIGHT - 1 : ℤ) : ℚ)))) ∧
    ((p.gapTop : ℚ) ≤ b.y →
      b.y + ((Flappy.BIRD_H : ℤ) : ℚ) - 1 ≤ ((p.gapTop + Flappy.GAP_HEIGHT - 1 : ℤ) : ℚ) →
      Flappy.Pipe.collides p b = false) := by
  have hxw : b.x ≤ b.x + ((Flappy.BIRD_W : ℤ) : ℚ) - 1 := by
    simp only [Flappy.BIRD_W]; push_cast; linarith
  have hxp : (p.x : ℚ) ≤ ((p.x + Flappy.PIPE_WIDTH - 1 : ℤ) : ℚ) := by
    simp only [Flappy.PIPE_WIDTH]; push_cast; linarith
  have hyw : b.y ≤ b.y + ((Flappy.BIRD_H : ℤ) : ℚ) - 1 := by
    simp only [Flappy.BIRD_H]; push_cast; linarith
  have hyp : (p.gapTop : ℚ) ≤ ((p.gapTop + Flappy.GAP_HEIGHT - 1 : ℤ) : ℚ) := by
    simp only [Flappy.GAP_HEIGHT]; push_cast; linarith
  constructor
  · rw [closed_inter_nonempty hxw hxp, closed_inter_nonempty hyw hyp]
    unfold Flappy.Pipe.collides
    simp only [Bool.and_eq_true, Bool.not_eq_true', Bool.and_eq_false_iff,
      decide_eq_true_eq, decide_eq_false_iff_not]
    constructor
    · rintro ⟨⟨h1, h2⟩, h3⟩
      exact ⟨⟨h1, h2⟩, by tauto⟩
    · rintro ⟨⟨h1, h2⟩, h3⟩
      exact ⟨⟨h1, h2⟩, by tauto⟩
  · intro hg1 hg2
    simp only [Flappy.Pipe.collides]
    have hgap : (decide ((p.gapTop : ℚ) ≤ b.y + ((Flappy.BIRD_H : ℤ) : ℚ) - 1) &&
        decide (b.y ≤ ((p.gapTop + Flappy.GAP_HEIGHT - 1 : ℤ) : ℚ))) = true := by
      simp only [Bool.and_eq_true, decide_eq_true_eq]
      constructor
      · calc (p.gapTop : ℚ) ≤ b.y := hg1
        _ ≤ b.y + ((Flappy.BIRD_H : ℤ) : ℚ) - 1 := hyw
      · calc b.y ≤ b.y + ((Flappy.BIRD_H : ℤ) : ℚ) - 1 := hyw
        _ ≤ ((p.gapTop + Flappy.GAP_HEIGHT - 1 : ℤ) : ℚ) := hg2
    rw [hgap]
    simp

/-- Claim C8 counterexample: the dino at x = 10 with width 6 and the
obstacle at x = 16 touch edge-to-edge (10 + 6 = 16), so their projections
overlap as closed intervals on both axes, yet the overlap test reports no
collision — touching edges do NOT count. -/
theorem touching_edges_counterexample :
    DinoGame.overlaps ⟨10, 22, 6, 6⟩ ⟨16, 22, 4, 6⟩ = false ∧
    (⟨10, 22, 6, 6⟩ : DinoGame.Rect).x + (⟨10, 22, 6, 6⟩ : DinoGame.Rect).w
      = (⟨16, 22, 4, 6⟩ : DinoGame.Rect).x ∧
    max (10 : ℚ) 16 ≤ min (10 + 6) (16 + 4) ∧
    max (22 : ℚ) 22 ≤ min (22 + 6) (22 + 6) := by
  refine ⟨?_, ?_, ?_, ?_⟩ <;>
    norm_num [DinoGame.overlaps, max_def, min_def]

/-- Two open rational intervals meet iff each lower end is below the
other's upper end. -/
theorem open_inter_nonempty {a b c d : ℚ} (hab : a < b) (hcd : c < d) :
    (∃ t : ℚ, (a < t ∧ t < b) ∧ (c < t ∧ t < d)) ↔ (a < d ∧ c < b) := by
  constructor
  · rintro ⟨t, ⟨h1, h2⟩, h3, h4⟩
    exact ⟨lt_trans h1 h4, lt_trans h3 h2⟩
  · rintro ⟨h1, h2⟩
    have h5 : max a c < min b d := by
      rcases max_cases a c with ⟨he, -⟩ | ⟨he, -⟩ <;>
        rcases min_cases b d with ⟨hf, -⟩ | ⟨hf, -⟩ <;> rw [he, hf] <;> linarith
    refine ⟨(max a c + min b d) / 2, ⟨?_, ?_⟩, ?_, ?_⟩
    · exact lt_of_le_of_lt (le_max_left a c) (by linarith)
    · exact lt_of_lt_of_le (by linarith) (min_le_left b d)
    · exact lt_of_le_of_lt (le_max_right a c) (by linarith)
    · exact lt_of_lt_of_le (by linarith) (min_le_right b d)

/-- Claim C8 (amended): for rectangles of positive size the overlap test
reports a collision iff the OPEN rectangles share a point — projections
must overlap with positive length on both axes, and rectangles whose edges
exactly touch do not count as overlapping; the test is symmetric. -/
theorem rect_overlap_strict (A B : DinoGame.Rect) (hAw : 0 < A.w) (hAh : 0 < A.h)
    (hBw : 0 < B.w) (hBh : 0 < B.h) :
    (DinoGame.overlaps A B = true ↔
      ∃ px py : ℚ, ((A.x < px ∧ px < A.x + A.w) ∧ (B.x < px ∧ px < B.x + B.w)) ∧
        ((A.y < py ∧ py < A.y + A.h) ∧ (B.y < py ∧ py < B.y + B.h))) ∧
    DinoGame.overlaps A B = DinoGame.overlaps B A := by
  constructor
  · constructor
    · intro hov
      simp only [DinoGame.overlaps, Bool.and_eq_true, decide_eq_true_eq] at hov
      obtain ⟨⟨⟨h1, h2⟩, h3⟩, h4⟩ := hov
      obtain ⟨px, hpx⟩ := (open_inter_nonempty (by linarith) (by linarith)).mpr ⟨h1, h2⟩
      obtain ⟨py, hpy⟩ := (open_inter_nonempty (by linarith) (by linarith)).mpr ⟨h3, h4⟩
      exact ⟨px, py, hpx, hpy⟩
    · rintro ⟨px, py, ⟨⟨ha1, ha2⟩, hb1, hb2⟩, ⟨hc1, hc2⟩, hd1, hd2⟩
      simp only [DinoGame.overlaps, Bool.and_eq_true, decide_eq_true_eq]
      refine ⟨⟨⟨?_, ?_⟩, ?_⟩, ?_⟩ <;> linarith
  · rw [Bool.eq_iff_iff]
    simp only [DinoGame.overlaps, Bool.and_eq_true, decide_eq_true_eq]
    tauto

/-- Witness for C8: the amended overlap characterization applied to two
concrete unit-overlapping squares, discharging the positive-size
hypotheses. -/
theorem rect_overlap_strict_witness :
    DinoGame.overlaps ⟨0, 0, 2, 2⟩ ⟨1, 1, 2, 2⟩
      = DinoGame.overlaps ⟨1, 1, 2, 2⟩ ⟨0, 0, 2, 2⟩ :=
  (rect_overlap_strict ⟨0, 0, 2, 2⟩ ⟨1, 1, 2, 2⟩ (by norm_num) (by norm_num)
    (by norm_num) (by norm_num)).2
